import Mathlib

/-!
Shallow embedding of `vmconnector.py` (class `RemoteExecutor`).

The remote world (the SSH transport, the ping utility, and the streamed
command process) is modelled as three scripted outcome lists inside a
`World` value; every `subprocess` invocation of the Python source pops the
next outcome from the corresponding list.  An exhausted list behaves like a
transport exception (the host has stopped answering), which keeps every
function total.  Console `print` calls of the source are pure logging and
are omitted.  `stdout.strip()` is absorbed into the scripted outcome: the
`stdout` field of an `SshOutcome` is the already-stripped text.

Python exceptions are modelled with `Except PyError`; the state of the
`RemoteExecutor` object is threaded explicitly.
-/

deriving instance DecidableEq for Except

/-- Outcome of one `subprocess.run` of an ssh command
(`is_alive`'s probe and `_get_boot_time`): either the process ran and
produced a return code plus (stripped) stdout, or `subprocess.run` raised
(timeout, OS error, ...). -/
inductive SshOutcome where
  | ran (returncode : Nat) (stdout : String)
  | exn
deriving DecidableEq

/-- Outcome of one `subprocess.run` of the ping fallback. -/
inductive PingOutcome where
  | ran (returncode : Nat)
  | exn
deriving DecidableEq

/-- Outcome of one `subprocess.Popen` streamed command in `stream_execute`:
either the process ran to completion with a return code, or launching or
streaming it raised. -/
inductive CmdOutcome where
  | ran (returncode : Nat)
  | exn
deriving DecidableEq

/-- The Python exception classes that can travel through this code. -/
inductive PyError where
  | remoteExecutionError (m : String)
  | remoteRebootDetected (m : String)
  | attributeError (attr : String)
  | runtimeError (m : String)
  | osError (m : String)
deriving DecidableEq

/-- `str(e)` of a `PyError`, as interpolated by the source's f-strings. -/
def PyError.msg : PyError → String
  | .remoteExecutionError m => m
  | .remoteRebootDetected m => m
  | .attributeError a => "'RemoteExecutor' object has no attribute '" ++ a ++ "'"
  | .runtimeError m => m
  | .osError m => m

/-- Mutable state of a `RemoteExecutor` instance (`__init__`). -/
structure RemoteExecutor where
  hostname : String
  username : String
  key_file : Option String
  port : Nat
  connected : Bool
  boot_time : Option String
deriving DecidableEq

/-- `RemoteExecutor.__init__`: `connected = False`, `boot_time = None`. -/
def mkExecutor (hostname username : String) (key_file : Option String) (port : Nat) :
    RemoteExecutor :=
  { hostname := hostname, username := username, key_file := key_file, port := port,
    connected := false, boot_time := none }

/-- The scripted outcomes of the remote world, one list per primitive. -/
structure World where
  sshRuns : List SshOutcome
  pings : List PingOutcome
  cmdRuns : List CmdOutcome
deriving DecidableEq

/-- Next ssh outcome; an exhausted script behaves like a raised transport
exception. -/
def popSsh (w : World) : SshOutcome × World :=
  match w.sshRuns with
  | [] => (.exn, w)
  | o :: rest => (o, { w with sshRuns := rest })

/-- Next ping outcome. -/
def popPing (w : World) : PingOutcome × World :=
  match w.pings with
  | [] => (.exn, w)
  | o :: rest => (o, { w with pings := rest })

/-- Next streamed-command outcome. -/
def popCmd (w : World) : CmdOutcome × World :=
  match w.cmdRuns with
  | [] => (.exn, w)
  | o :: rest => (o, { w with cmdRuns := rest })

/-- `RemoteExecutor._build_ssh_command`. -/
def build_ssh_command (s : RemoteExecutor) (command : String) : List String :=
  let ssh_cmd := ["ssh", "-p", toString s.port, "-o", "BatchMode=yes",
                  "-o", "ConnectTimeout=5", s.username ++ "@" ++ s.hostname, command]
  match s.key_file with
  | some kf => "ssh" :: "-i" :: kf :: ssh_cmd.drop 1
  | none => ssh_cmd

/-- The attribute names defined on a `RemoteExecutor` object in the source:
the `__init__` fields and the methods of the class.  There is no `execute`
attribute. -/
def executorAttrs : List String :=
  ["hostname", "username", "key_file", "port", "connected", "boot_time",
   "__init__", "is_alive", "reconnect", "was_rebooted", "_build_ssh_command",
   "_get_boot_time", "stream_execute", "_wait_for_reboot_and_reconnect"]

/-- Which `PyError` an `except RemoteExecutionError` clause catches. -/
def isRemoteExecutionError : PyError → Bool
  | .remoteExecutionError _ => true
  | _ => false

/-- The ping fallback of `is_alive` (lines 48-65): whatever the ping does
— succeed, fail, or raise — `is_alive` returns `False` and the state is
untouched. -/
def pingFallback (s : RemoteExecutor) (w : World) : Bool × RemoteExecutor × World :=
  let p := popPing w
  match p.1 with
  | .ran 0 => (false, s, p.2)
  | .ran _ => (false, s, p.2)
  | .exn => (false, s, p.2)

/-- `RemoteExecutor.is_alive`: ssh probe of `uptime -s`; on exit code 0 it
stores the observed boot time and sets `connected = True`; any other
outcome (nonzero code or exception) falls back to ping and returns
`False`. -/
def is_alive (s : RemoteExecutor) (w : World) : Bool × RemoteExecutor × World :=
  let p := popSsh w
  match p.1 with
  | .ran code out =>
    if code = 0 then
      (true, { s with boot_time := some out, connected := true }, p.2)
    else
      pingFallback s p.2
  | .exn => pingFallback s p.2

/-- `RemoteExecutor._get_boot_time`: one ssh run of `uptime -s`; returns the
stripped stdout without checking the return code, and `""` if the run
raised. -/
def get_boot_time (_s : RemoteExecutor) (w : World) : String × World :=
  let p := popSsh w
  match p.1 with
  | .ran _ out => (out, p.2)
  | .exn => ("", p.2)

/-- Result of `RemoteExecutor.reconnect`: a normal `return` of a boolean, or
a raised `RemoteRebootDetected` carrying the two compared boot times. -/
inductive ReconnectResult where
  | ret (b : Bool)
  | rebootDetected (oldBT newBT : String)
deriving DecidableEq

/-- The f-string of the `RemoteRebootDetected` raised by `reconnect`. -/
def rebootMsg (oldBT newBT : String) : String :=
  "Remote host rebooted! Old: " ++ oldBT ++ ", New: " ++ newBT

/-- `RemoteExecutor.reconnect`: probes with `is_alive` (which already stores
the fresh boot time on success), reads back `self.boot_time` as
`current_boot_time`, queries `_get_boot_time` once more, and raises
`RemoteRebootDetected` when the two differ and the first is truthy.  The
`except Exception` clause of the source is unreachable here because
`is_alive` and `_get_boot_time` are non-throwing. -/
def reconnect (s : RemoteExecutor) (w : World) : ReconnectResult × RemoteExecutor × World :=
  let a := is_alive s w
  match a with
  | (false, s1, w1) => (.ret false, s1, w1)
  | (true, s1, w1) =>
    let g := get_boot_time s1 w1
    let new_boot_time := g.1
    match s1.boot_time with
    | some current =>
      if current ≠ "" ∧ current ≠ new_boot_time then
        (.rebootDetected current new_boot_time, { s1 with boot_time := some new_boot_time }, g.2)
      else
        (.ret true, { s1 with boot_time := some new_boot_time }, g.2)
    | none => (.ret true, { s1 with boot_time := some new_boot_time }, g.2)

/-- `RemoteExecutor.was_rebooted`: the body calls `self.execute(...)`, an
attribute the class does not define, so Python raises `AttributeError`
before any remote call happens; the `except RemoteExecutionError` clause
does not match it. -/
def was_rebooted (s : RemoteExecutor) : Except PyError Bool × RemoteExecutor :=
  if "execute" ∈ executorAttrs then
    -- Unreachable: `executorAttrs` has no "execute" entry, so the attribute
    -- lookup below fails before the call could be modelled.
    (.ok false, s)
  else
    let e := PyError.attributeError "execute"
    if isRemoteExecutionError e then (.ok false, s) else (.error e, s)

/-- The message of the `RemoteExecutionError` raised on recovery timeout. -/
def timeoutMsg : String := " Timeout: Remote host did not come back online."

/-- `RemoteExecutor._wait_for_reboot_and_reconnect`: polls `_get_boot_time`,
ends on the first truthy (non-empty) value by setting `connected = True`
and storing the value, and raises `RemoteExecutionError` when the deadline
passes with no success.  The wall-clock deadline of the source
(`while time.time() - start_time < timeout` with `time.sleep(interval)`)
is modelled as an iteration budget `fuel`; with the source's defaults
(`timeout=300`, `interval=5`) the budget is `300 / 5` iterations. -/
def wait_for_reboot_and_reconnect :
    Nat → RemoteExecutor → World → Except PyError Bool × RemoteExecutor × World
  | 0, s, w => (.error (.remoteExecutionError timeoutMsg), s, w)
  | fuel + 1, s, w =>
    let g := get_boot_time s w
    let new_boot_time := g.1
    if new_boot_time ≠ "" then
      (.ok true, { s with connected := true, boot_time := some new_boot_time }, g.2)
    else
      wait_for_reboot_and_reconnect fuel s g.2

/-- Iteration budget of the recovery loop at the source's default
`timeout=300`, `interval=5`. -/
def recoveryFuel : Nat := 300 / 5

/-- `RemoteExecutor.stream_execute`, with the boolean `retry_on_reboot`
generalized to a retry budget: budget `1` is Python's
`retry_on_reboot=True`, budget `0` is `retry_on_reboot=False`, and every
recursive call of the source passes `False`, i.e. budget `0`.

Control flow of the source, faithfully:
* not connected: `reconnect()` inside a `try`; its return value is ignored;
  with retries left the command recurses with the budget spent; with no
  retries left the bare `raise` has no active exception and raises
  `RuntimeError`; every exception of this block — including a
  `RemoteRebootDetected` raised by `reconnect` — is caught by
  `except Exception` and wrapped into
  `RemoteExecutionError("Reconnect failed: ...")`.
* connected: run the command; exit code 255 runs
  `_wait_for_reboot_and_reconnect()` and then retries (budget left) or
  raises `RemoteExecutionError("SSH failed and retry exhausted.")`
  (budget spent); any other nonzero code raises
  `RemoteExecutionError("Command failed with code ...")`.  Exceptions of
  this `try` block hit `except RemoteRebootDetected` (retry or re-raise)
  first, then `except Exception`, which wraps into
  `RemoteExecutionError("Streaming command failed: ...")`. -/
def stream_execute_fuel :
    Nat → RemoteExecutor → World → Except PyError Unit × RemoteExecutor × World
  | fuel, s, w =>
    if s.connected = false then
      let attempt : Except PyError Unit × RemoteExecutor × World :=
        match reconnect s w with
        | (.rebootDetected oldBT newBT, s1, w1) =>
          (.error (.remoteRebootDetected (rebootMsg oldBT newBT)), s1, w1)
        | (.ret _, s1, w1) =>
          match fuel with
          | f + 1 => stream_execute_fuel f s1 w1
          | 0 => (.error (.runtimeError "No active exception to re-raise"), s1, w1)
      match attempt with
      | (.ok v, s1, w1) => (.ok v, s1, w1)
      | (.error e, s1, w1) =>
        (.error (.remoteExecutionError ("Reconnect failed: " ++ e.msg)), s1, w1)
    else
      let c := popCmd w
      let body : Except PyError Unit × RemoteExecutor × World :=
        match c.1 with
        | .exn => (.error (.osError "Popen failed"), s, c.2)
        | .ran code =>
          if code = 255 then
            match wait_for_reboot_and_reconnect recoveryFuel s c.2 with
            | (.error e, s2, w2) => (.error e, s2, w2)
            | (.ok _, s2, w2) =>
              match fuel with
              | f + 1 => stream_execute_fuel f s2 w2
              | 0 => (.error (.remoteExecutionError "SSH failed and retry exhausted."), s2, w2)
          else if code ≠ 0 then
            (.error (.remoteExecutionError ("Command failed with code " ++ toString code)), s, c.2)
          else
            (.ok (), s, c.2)
      match body with
      | (.ok v, s2, w2) => (.ok v, s2, w2)
      | (.error (PyError.remoteRebootDetected m), s2, w2) =>
        match fuel with
        | f + 1 => stream_execute_fuel f s2 w2
        | 0 => (.error (.remoteRebootDetected m), s2, w2)
      | (.error e, s2, w2) =>
        (.error (.remoteExecutionError ("Streaming command failed: " ++ e.msg)), s2, w2)

/-- `RemoteExecutor.stream_execute` with the source's boolean flag:
`retry_on_reboot=True` is retry budget `1`, `False` is budget `0`. -/
def stream_execute (s : RemoteExecutor) (w : World) (retry_on_reboot : Bool) :
    Except PyError Unit × RemoteExecutor × World :=
  stream_execute_fuel (cond retry_on_reboot 1 0) s w

/-- A sequence of `n` successive `reconnect` calls on the same executor,
collecting each call's result. -/
def reconnectSeq (s : RemoteExecutor) (w : World) : Nat → List ReconnectResult
  | 0 => []
  | n + 1 =>
    let r := reconnect s w
    r.1 :: reconnectSeq r.2.1 r.2.2 n

/-- The boot-time string the `i`-th iteration of the recovery loop (or the
`i`-th ssh run in general) observes: stdout of the `i`-th scripted ssh
outcome, `""` when that run raised or the script is exhausted. -/
def probeAt (w : World) (i : Nat) : String :=
  match w.sshRuns.getD i SshOutcome.exn with
  | .ran _ out => out
  | .exn => ""

/-- Whether an ssh outcome is the success case of the liveness probe:
the process ran and exited with code 0. -/
def sshProbeOk : SshOutcome → Bool
  | .ran 0 _ => true
  | .ran (_ + 1) _ => false
  | .exn => false

/-- Concrete input: a connected executor whose stored fingerprint is "B1". -/
def execB1 : RemoteExecutor :=
  { hostname := "host", username := "user", key_file := none, port := 22,
    connected := true, boot_time := some "B1" }

/-- Concrete input: a freshly constructed executor. -/
def execNew : RemoteExecutor := mkExecutor "host" "user" none 22

/-- Concrete world: the host rebooted (fingerprint now "B2") and both ssh
queries of a single `reconnect` call observe "B2". -/
def wRebootMissed : World :=
  { sshRuns := [.ran 0 "B2", .ran 0 "B2"], pings := [], cmdRuns := [] }

/-- Concrete world for the four-refresh scenario observing
`[None, "B1", "B1", "B2"]`: the first refresh finds the host unreachable,
the next two observe "B1" (two ssh queries per refresh), the last observes
"B2". -/
def wScenario : World :=
  { sshRuns := [.exn, .ran 0 "B1", .ran 0 "B1", .ran 0 "B1", .ran 0 "B1",
                .ran 0 "B2", .ran 0 "B2"],
    pings := [.ran 0], cmdRuns := [] }

/-- Concrete world: the liveness probe observes "B2" but the second
boot-time query of the same `reconnect` call raises. -/
def wPhantom : World :=
  { sshRuns := [.ran 0 "B2", .exn], pings := [], cmdRuns := [] }

/-- Concrete world: every command run exits with the connection-refusal
code 255 and every recovery probe succeeds. -/
def wRefused : World :=
  { sshRuns := [.ran 0 "B1", .ran 0 "B2"], pings := [], cmdRuns := [.ran 255, .ran 255] }

/-- Concrete world: `reconnect`'s two queries observe "B1" then "B2" (a
reboot between them), and the command itself would succeed. -/
def wRebootInReconnect : World :=
  { sshRuns := [.ran 0 "B1", .ran 0 "B2"], pings := [], cmdRuns := [.ran 0] }

/-- Concrete world: the command exits with code 1. -/
def wExitOne : World :=
  { sshRuns := [], pings := [], cmdRuns := [.ran 1] }

/-- Concrete world: the ssh probe raises and the ping succeeds. -/
def wProbeFail : World :=
  { sshRuns := [.exn], pings := [.ran 0], cmdRuns := [] }

/-- Concrete world: a single successful ssh probe observing "B1". -/
def wProbeOk : World :=
  { sshRuns := [.ran 0 "B1"], pings := [], cmdRuns := [] }

/-- The ping fallback always reports `False` and never mutates the executor. -/
theorem pingFallback_spec (s : RemoteExecutor) (w : World) :
    (pingFallback s w).1 = false ∧ (pingFallback s w).2.1 = s := by
  rcases w with ⟨ssh, pings, cmds⟩
  rcases pings with _ | ⟨p, rest⟩
  · exact ⟨rfl, rfl⟩
  · rcases p with code | _
    · rcases code with _ | c <;> exact ⟨rfl, rfl⟩
    · exact ⟨rfl, rfl⟩

/-- A failed probe leaves the whole executor state untouched. -/
theorem is_alive_false_state (s : RemoteExecutor) (w : World)
    (h : (is_alive s w).1 = false) : (is_alive s w).2.1 = s := by
  rcases w with ⟨ssh, pings, cmds⟩
  rcases ssh with _ | ⟨o, rest⟩
  · exact (pingFallback_spec s ⟨[], pings, cmds⟩).2
  · rcases o with ⟨code, out⟩ | _
    · rcases code with _ | c
      · exact absurd h (by simp [is_alive, popSsh])
      · exact (pingFallback_spec s ⟨rest, pings, cmds⟩).2
    · exact (pingFallback_spec s ⟨rest, pings, cmds⟩).2

/-- On a successful probe the ssh script started with an exit-0 run and the
executor stores exactly that observation. -/
theorem is_alive_true_state (s : RemoteExecutor) (w : World)
    (h : (is_alive s w).1 = true) :
    ∃ out rest, w.sshRuns = SshOutcome.ran 0 out :: rest ∧
      is_alive s w = (true, { s with boot_time := some out, connected := true },
        { w with sshRuns := rest }) := by
  rcases w with ⟨ssh, pings, cmds⟩
  rcases ssh with _ | ⟨o, rest⟩
  · exact absurd ((pingFallback_spec s ⟨[], pings, cmds⟩).1 ▸ h) (by simp)
  · rcases o with ⟨code, out⟩ | _
    · rcases code with _ | c
      · exact ⟨out, rest, rfl, rfl⟩
      · exact absurd ((pingFallback_spec s ⟨rest, pings, cmds⟩).1 ▸ h) (by simp)
    · exact absurd ((pingFallback_spec s ⟨rest, pings, cmds⟩).1 ▸ h) (by simp)

/-- `is_alive` never touches the streamed-command script. -/
theorem is_alive_cmdRuns (s : RemoteExecutor) (w : World) :
    ((is_alive s w).2.2).cmdRuns = w.cmdRuns := by
  rcases w with ⟨ssh, pings, cmds⟩
  rcases ssh with _ | ⟨o, rest⟩
  · rcases pings with _ | ⟨p, prest⟩
    · rfl
    · rcases p with code | _
      · rcases code with _ | c <;> rfl
      · rfl
  · rcases o with ⟨code, out⟩ | _
    · rcases code with _ | c
      · rfl
      · rcases pings with _ | ⟨p, prest⟩
        · rfl
        · rcases p with pcode | _
          · rcases pcode with _ | pc <;> rfl
          · rfl
    · rcases pings with _ | ⟨p, prest⟩
      · rfl
      · rcases p with pcode | _
        · rcases pcode with _ | pc <;> rfl
        · rfl

/-- `_get_boot_time` never touches the ping or streamed-command scripts. -/
theorem get_boot_time_frame (s : RemoteExecutor) (w : World) :
    ((get_boot_time s w).2).pings = w.pings ∧
      ((get_boot_time s w).2).cmdRuns = w.cmdRuns := by
  rcases w with ⟨ssh, pings, cmds⟩
  rcases ssh with _ | ⟨o, rest⟩
  · exact ⟨rfl, rfl⟩
  · rcases o with ⟨code, out⟩ | _ <;> exact ⟨rfl, rfl⟩

/-- `reconnect` never touches the streamed-command script. -/
theorem reconnect_cmdRuns (s : RemoteExecutor) (w : World) :
    ((reconnect s w).2.2).cmdRuns = w.cmdRuns := by
  have hal := is_alive_cmdRuns s w
  rcases hr : is_alive s w with ⟨b, s1, w1⟩
  rw [hr] at hal
  rcases b with _ | _
  · simpa [reconnect, hr] using hal
  · have hg := (get_boot_time_frame s1 w1).2
    have hal' : w1.cmdRuns = w.cmdRuns := hal
    simp only [reconnect, hr]
    split <;> try split
    all_goals simp [hg, hal']

/-- The world left by `_get_boot_time` is the popped ssh script. -/
theorem get_boot_time_snd (s : RemoteExecutor) (w : World) :
    (get_boot_time s w).2 = (popSsh w).2 := by
  rcases w with ⟨ssh, pings, cmds⟩
  rcases ssh with _ | ⟨o, rest⟩
  · rfl
  · rcases o with ⟨code, out⟩ | _ <;> rfl

/-- The value read by `_get_boot_time` is the first scripted observation. -/
theorem get_boot_time_fst (s : RemoteExecutor) (w : World) :
    (get_boot_time s w).1 = probeAt w 0 := by
  rcases w with ⟨ssh, pings, cmds⟩
  rcases ssh with _ | ⟨o, rest⟩
  · rfl
  · rcases o with ⟨code, out⟩ | _ <;> rfl

/-- Observations after a pop are the original observations shifted by one. -/
theorem probeAt_pop (w : World) (i : Nat) :
    probeAt (popSsh w).2 i = probeAt w (i + 1) := by
  rcases w with ⟨ssh, pings, cmds⟩
  rcases ssh with _ | ⟨o, rest⟩
  · rfl
  · simp [popSsh, probeAt, List.getD]

/-- The recovery loop either times out with the executor untouched, or it
succeeds and stores a non-empty fingerprint with `connected = True`. -/
theorem wait_main (fuel : Nat) (s : RemoteExecutor) :
    ∀ w : World,
      ((wait_for_reboot_and_reconnect fuel s w).1 =
          Except.error (PyError.remoteExecutionError timeoutMsg) ∧
        (wait_for_reboot_and_reconnect fuel s w).2.1 = s) ∨
      (∃ bt, bt ≠ "" ∧
        (wait_for_reboot_and_reconnect fuel s w).1 = Except.ok true ∧
        (wait_for_reboot_and_reconnect fuel s w).2.1 =
          { s with connected := true, boot_time := some bt }) := by
  induction fuel with
  | zero => intro w; exact Or.inl ⟨rfl, rfl⟩
  | succ f ih =>
    intro w
    by_cases h : (get_boot_time s w).1 = ""
    · have hrec : wait_for_reboot_and_reconnect (f + 1) s w =
          wait_for_reboot_and_reconnect f s (get_boot_time s w).2 := by
        simp [wait_for_reboot_and_reconnect, h]
      rw [hrec]
      exact ih (get_boot_time s w).2
    · refine Or.inr ⟨(get_boot_time s w).1, h, ?_, ?_⟩ <;>
        simp [wait_for_reboot_and_reconnect, h]

/-- Success of the recovery loop happens exactly at the first non-empty
scripted observation, and only within the iteration budget. -/
theorem wait_indices (fuel : Nat) (s : RemoteExecutor) :
    ∀ w : World,
      ((wait_for_reboot_and_reconnect fuel s w).1 = Except.ok true →
        ∃ i, i < fuel ∧ probeAt w i ≠ "" ∧ (∀ j, j < i → probeAt w j = "") ∧
          (wait_for_reboot_and_reconnect fuel s w).2.1.boot_time = some (probeAt w i)) ∧
      ((∀ i, i < fuel → probeAt w i = "") →
        (wait_for_reboot_and_reconnect fuel s w).1 =
          Except.error (PyError.remoteExecutionError timeoutMsg)) := by
  induction fuel with
  | zero =>
    intro w
    refine ⟨fun h => by simp [wait_for_reboot_and_reconnect] at h, fun _ => rfl⟩
  | succ f ih =>
    intro w
    by_cases h : (get_boot_time s w).1 = ""
    · have h0 : probeAt w 0 = "" := by rw [← get_boot_time_fst s w]; exact h
      have hrec : wait_for_reboot_and_reconnect (f + 1) s w =
          wait_for_reboot_and_reconnect f s (get_boot_time s w).2 := by
        simp [wait_for_reboot_and_reconnect, h]
      have hshift : ∀ i, probeAt (get_boot_time s w).2 i = probeAt w (i + 1) := by
        intro i; rw [get_boot_time_snd]; exact probeAt_pop w i
      constructor
      · intro hok
        rw [hrec] at hok
        obtain ⟨i, hi, hne, hfirst, hboot⟩ := (ih (get_boot_time s w).2).1 hok
        refine ⟨i + 1, by omega, by rwa [hshift] at hne, ?_, ?_⟩
        · intro j hj
          rcases j with _ | j
          · exact h0
          · exact (hshift j) ▸ hfirst j (by omega)
        · rw [hrec]; rwa [hshift] at hboot
      · intro hall
        rw [hrec]
        refine (ih (get_boot_time s w).2).2 (fun i hi => ?_)
        rw [hshift]; exact hall (i + 1) (by omega)
    · have h0 : probeAt w 0 ≠ "" := by rw [← get_boot_time_fst s w]; exact h
      constructor
      · intro _
        refine ⟨0, by omega, h0, fun j hj => absurd hj (by omega), ?_⟩
        simp [wait_for_reboot_and_reconnect, h, h0, get_boot_time_fst]
      · intro hall
        exact absurd (hall 0 (by omega)) h0

/-- When the first scripted observation is a successful exit-0 run with a
non-empty boot time, the recovery loop ends on its first iteration. -/
theorem wait_first_success (f : Nat) (s : RemoteExecutor) (w : World) (bt : String)
    (rest : List SshOutcome) (hw : w.sshRuns = SshOutcome.ran 0 bt :: rest)
    (hbt : bt ≠ "") :
    wait_for_reboot_and_reconnect (f + 1) s w =
      (Except.ok true, { s with connected := true, boot_time := some bt },
        { w with sshRuns := rest }) := by
  rcases w with ⟨ssh, pings, cmds⟩
  simp only at hw
  subst hw
  simp [wait_for_reboot_and_reconnect, get_boot_time, popSsh, hbt]

/-- The recovery loop never touches the streamed-command script. -/
theorem wait_cmdRuns (fuel : Nat) (s : RemoteExecutor) :
    ∀ w : World,
      ((wait_for_reboot_and_reconnect fuel s w).2.2).cmdRuns = w.cmdRuns := by
  induction fuel with
  | zero => intro w; rfl
  | succ f ih =>
    intro w
    by_cases h : (get_boot_time s w).1 = ""
    · have hrec : wait_for_reboot_and_reconnect (f + 1) s w =
          wait_for_reboot_and_reconnect f s (get_boot_time s w).2 := by
        simp [wait_for_reboot_and_reconnect, h]
      rw [hrec, ih, (get_boot_time_frame s w).2]
    · have := (get_boot_time_frame s w).2
      simp [wait_for_reboot_and_reconnect, h, this]

/-- With the retry budget spent, one `stream_execute` call launches the
command at most once and never lets a `RemoteRebootDetected` escape. -/
theorem stream0_spec (s : RemoteExecutor) (w : World) :
    w.cmdRuns.length ≤ ((stream_execute_fuel 0 s w).2.2).cmdRuns.length + 1 ∧
      ∀ m, (stream_execute_fuel 0 s w).1 ≠
        Except.error (PyError.remoteRebootDetected m) := by
  by_cases hc : s.connected = false
  · rcases hr : reconnect s w with ⟨r, s1, w1⟩
    have hw1 : w1.cmdRuns = w.cmdRuns := by
      have h := reconnect_cmdRuns s w
      rwa [hr] at h
    rcases r with b | ⟨obt, nbt⟩ <;>
      exact ⟨by simp [stream_execute_fuel, hc, hr, hw1],
        fun m => by simp [stream_execute_fuel, hc, hr]⟩
  · rcases hW : wait_for_reboot_and_reconnect recoveryFuel s (popCmd w).2
      with ⟨res, s2, w2⟩
    have hw2 : w2.cmdRuns = (popCmd w).2.cmdRuns := by
      have h := wait_cmdRuns recoveryFuel s (popCmd w).2
      rwa [hW] at h
    have hres : res = Except.error (PyError.remoteExecutionError timeoutMsg) ∨
        res = Except.ok true := by
      have h := wait_main recoveryFuel s (popCmd w).2
      rw [hW] at h
      rcases h with ⟨h1, _⟩ | ⟨bt, _, h1, _⟩
      · exact Or.inl h1
      · exact Or.inr h1
    rcases w with ⟨ssh, pings, cmds⟩
    rcases cmds with _ | ⟨c, rest⟩
    · exact ⟨by simp [stream_execute_fuel, hc, popCmd], fun m => by
        simp [stream_execute_fuel, hc, popCmd, PyError.msg]⟩
    · rcases c with code | _
      · simp only [popCmd] at hW hw2
        by_cases h255 : code = 255
        · subst h255
          rcases hres with h1 | h1 <;> subst h1
          · exact ⟨by simp [stream_execute_fuel, hc, popCmd, hW, hw2],
              fun m => by simp [stream_execute_fuel, hc, popCmd, hW, PyError.msg]⟩
          · exact ⟨by simp [stream_execute_fuel, hc, popCmd, hW, hw2],
              fun m => by simp [stream_execute_fuel, hc, popCmd, hW, PyError.msg]⟩
        · by_cases h0 : code = 0
          · subst h0
            exact ⟨by simp [stream_execute_fuel, hc, popCmd],
              fun m => by simp [stream_execute_fuel, hc, popCmd]⟩
          · exact ⟨by simp [stream_execute_fuel, hc, popCmd, h255, h0],
              fun m => by simp [stream_execute_fuel, hc, popCmd, h255, h0, PyError.msg]⟩
      · exact ⟨by simp [stream_execute_fuel, hc, popCmd],
          fun m => by simp [stream_execute_fuel, hc, popCmd, PyError.msg]⟩

/-- With the full retry budget, one top-level `stream_execute` call
launches the command at most twice. -/
theorem stream1_cmd_bound (s : RemoteExecutor) (w : World) :
    w.cmdRuns.length ≤ ((stream_execute_fuel 1 s w).2.2).cmdRuns.length + 2 := by
  by_cases hc : s.connected = false
  · rcases hr : reconnect s w with ⟨r, s1, w1⟩
    have hw1 : w1.cmdRuns = w.cmdRuns := by
      have h := reconnect_cmdRuns s w
      rwa [hr] at h
    rcases r with b | ⟨obt, nbt⟩
    · rcases h0 : stream_execute_fuel 0 s1 w1 with ⟨res0, s0, w0⟩
      have hb0 : w1.cmdRuns.length ≤ w0.cmdRuns.length + 1 := by
        have h := (stream0_spec s1 w1).1
        rwa [h0] at h
      rw [hw1] at hb0
      rcases res0 with e | v
      · simp only [stream_execute_fuel, hc, if_true, hr, h0]
        omega
      · simp only [stream_execute_fuel, hc, if_true, hr, h0]
        omega
    · simp [stream_execute_fuel, hc, hr, hw1]
  · rcases hW : wait_for_reboot_and_reconnect recoveryFuel s (popCmd w).2
      with ⟨res, s2, w2⟩
    have hw2 : w2.cmdRuns = (popCmd w).2.cmdRuns := by
      have h := wait_cmdRuns recoveryFuel s (popCmd w).2
      rwa [hW] at h
    have hres : res = Except.error (PyError.remoteExecutionError timeoutMsg) ∨
        res = Except.ok true := by
      have h := wait_main recoveryFuel s (popCmd w).2
      rw [hW] at h
      rcases h with ⟨h1, _⟩ | ⟨bt, _, h1, _⟩
      · exact Or.inl h1
      · exact Or.inr h1
    rcases w with ⟨ssh, pings, cmds⟩
    rcases cmds with _ | ⟨c, rest⟩
    · simp [stream_execute_fuel, hc, popCmd]
    · rcases c with code | _
      · simp only [popCmd] at hW hw2
        by_cases h255 : code = 255
        · subst h255
          rcases hres with h1 | h1 <;> subst h1
          · simp [stream_execute_fuel, hc, popCmd, hW, hw2]
          · rcases h0 : stream_execute_fuel 0 s2 w2 with ⟨res0, s0, w0⟩
            have hb0 : w2.cmdRuns.length ≤ w0.cmdRuns.length + 1 := by
              have h := (stream0_spec s2 w2).1
              rwa [h0] at h
            have hnr := (stream0_spec s2 w2).2
            rw [h0] at hnr
            rw [hw2] at hb0
            rcases res0 with e | v
            · rcases e with m | m | a | m | m
              all_goals
                first
                | exact absurd rfl (hnr _)
                | (rw [stream_execute_fuel]
                   simp [hc, popCmd, hW, h0]
                   omega)
            · rw [stream_execute_fuel]
              simp [hc, popCmd, hW, h0]
              omega
        · by_cases h0 : code = 0
          · subst h0
            simp [stream_execute_fuel, hc, popCmd]
          · simp [stream_execute_fuel, hc, popCmd, h255, h0]
      · simp [stream_execute_fuel, hc, popCmd]

/-- Connected executor, two consecutive connection-refusal exits, both
recoveries succeeding: the single retry is consumed and the second failure
surfaces as the (twice-wrapped) retry-exhausted `RemoteExecutionError`. -/
theorem stream_exhausted (s : RemoteExecutor) (b1 b2 : String)
    (sshRest : List SshOutcome) (pings : List PingOutcome) (rest : List CmdOutcome)
    (hc : s.connected = true) (hb1 : b1 ≠ "") (hb2 : b2 ≠ "") :
    stream_execute_fuel 1 s
      ⟨SshOutcome.ran 0 b1 :: SshOutcome.ran 0 b2 :: sshRest, pings,
        CmdOutcome.ran 255 :: CmdOutcome.ran 255 :: rest⟩ =
      (Except.error (PyError.remoteExecutionError
          "Streaming command failed: Streaming command failed: SSH failed and retry exhausted."),
        { s with connected := true, boot_time := some b2 },
        ⟨sshRest, pings, rest⟩) := by
  have hrf : recoveryFuel = 59 + 1 := rfl
  have hw1 : wait_for_reboot_and_reconnect recoveryFuel s
      ⟨SshOutcome.ran 0 b1 :: SshOutcome.ran 0 b2 :: sshRest, pings,
        CmdOutcome.ran 255 :: rest⟩ =
      (Except.ok true, { s with connected := true, boot_time := some b1 },
        ⟨SshOutcome.ran 0 b2 :: sshRest, pings, CmdOutcome.ran 255 :: rest⟩) := by
    rw [hrf]
    exact wait_first_success 59 s _ b1 _ rfl hb1
  have hw2 : wait_for_reboot_and_reconnect recoveryFuel
      { s with connected := true, boot_time := some b1 }
      ⟨SshOutcome.ran 0 b2 :: sshRest, pings, rest⟩ =
      (Except.ok true, { s with connected := true, boot_time := some b2 },
        ⟨sshRest, pings, rest⟩) := by
    rw [hrf]
    exact wait_first_success 59 _ _ b2 _ rfl hb2
  have hin : stream_execute_fuel 0 { s with connected := true, boot_time := some b1 }
      ⟨SshOutcome.ran 0 b2 :: sshRest, pings, CmdOutcome.ran 255 :: rest⟩ =
      (Except.error (PyError.remoteExecutionError
          "Streaming command failed: SSH failed and retry exhausted."),
        { s with connected := true, boot_time := some b2 }, ⟨sshRest, pings, rest⟩) := by
    rw [stream_execute_fuel]
    simp only [popCmd, hw2]
    rfl
  rw [stream_execute_fuel]
  simp only [hc, popCmd, hw1, hin]
  rfl

/-- Connected executor, command exits with a nonzero code other than 255:
the call fails at once with the wrapped exit-code error, the executor is
unchanged, and neither the ssh nor the ping script is consumed. -/
theorem stream_nonzero_fail (fuel : Nat) (s : RemoteExecutor) (w : World)
    (code : Nat) (rest : List CmdOutcome) (hc : s.connected = true)
    (hcmd : w.cmdRuns = CmdOutcome.ran code :: rest)
    (h255 : code ≠ 255) (h0 : code ≠ 0) :
    stream_execute_fuel fuel s w =
      (Except.error (PyError.remoteExecutionError
          ("Streaming command failed: " ++ ("Command failed with code " ++ toString code))),
        s, { w with cmdRuns := rest }) := by
  rcases w with ⟨ssh, pings, cmds⟩
  simp only at hcmd
  subst hcmd
  rw [stream_execute_fuel]
  simp [hc, popCmd, h255, h0, PyError.msg]

/-- Entering `stream_execute` while not connected, when `reconnect` raises
`RemoteRebootDetected`: the exception is caught by the `except Exception`
clause and wrapped, for every retry budget. -/
theorem stream_reconnect_reboot (fuel : Nat) (s : RemoteExecutor) (w : World)
    (oldBT newBT : String) (s1 : RemoteExecutor) (w1 : World)
    (hc : s.connected = false)
    (hr : reconnect s w = (ReconnectResult.rebootDetected oldBT newBT, s1, w1)) :
    stream_execute_fuel fuel s w =
      (Except.error (PyError.remoteExecutionError
          ("Reconnect failed: " ++ rebootMsg oldBT newBT)), s1, w1) := by
  rw [stream_execute_fuel]
  simp [hc, hr, PyError.msg]

/-- Claim C1: the spec says a refresh whose fresh fingerprint differs from
the previously stored `lastBootTime` updates the value and reports
`RebootDetected(old, new)`, and that the refresh sequence observing
`[None, "B1", "B1", "B2"]` ends in `RebootDetected("B1","B2")`.  The code
does not do this: `is_alive` overwrites `self.boot_time` with the fresh
observation before `reconnect` compares, so with stored fingerprint "B1"
and a host now reporting "B2", `reconnect` returns `True` (Ok) and stores
"B2" silently, and the four-refresh scenario yields
`[False, True, True, True]` with no reboot ever reported. -/
theorem c1_reconnect_misses_reboot :
    reconnect execB1 wRebootMissed =
      (ReconnectResult.ret true, { execB1 with boot_time := some "B2" },
        { wRebootMissed with sshRuns := [] }) ∧
      reconnectSeq execNew wScenario 4 =
        [ReconnectResult.ret false, ReconnectResult.ret true,
          ReconnectResult.ret true, ReconnectResult.ret true] := by
  exact ⟨by decide, by decide⟩

/-- Claim C2: with `retry_on_reboot=True` the command is launched at most
twice in the whole call chain (one retry), and when every launch exits
with the connection-refusal code 255 and recovery succeeds, the second
failure surfaces as a `RemoteExecutionError` whose message reports the
exhausted retry instead of retrying again. -/
theorem c2_single_retry_bound :
    (∀ (s : RemoteExecutor) (w : World),
      w.cmdRuns.length ≤ ((stream_execute s w true).2.2).cmdRuns.length + 2) ∧
    (∀ (s : RemoteExecutor) (b1 b2 : String) (sshRest : List SshOutcome)
      (pings : List PingOutcome) (rest : List CmdOutcome),
      s.connected = true → b1 ≠ "" → b2 ≠ "" →
      (stream_execute s
        ⟨SshOutcome.ran 0 b1 :: SshOutcome.ran 0 b2 :: sshRest, pings,
          CmdOutcome.ran 255 :: CmdOutcome.ran 255 :: rest⟩ true).1 =
        Except.error (PyError.remoteExecutionError
          "Streaming command failed: Streaming command failed: SSH failed and retry exhausted.")) := by
  refine ⟨fun s w => stream1_cmd_bound s w,
    fun s b1 b2 sshRest pings rest hc hb1 hb2 => ?_⟩
  have h := stream_exhausted s b1 b2 sshRest pings rest hc hb1 hb2
  exact congrArg Prod.fst h

/-- Witness for C2 at a concrete connected executor and a script of two
255-exits with successful recoveries. -/
theorem c2_single_retry_bound_witness :
    wRefused.cmdRuns.length ≤
        ((stream_execute execB1 wRefused true).2.2).cmdRuns.length + 2 ∧
      (stream_execute execB1 wRefused true).1 =
        Except.error (PyError.remoteExecutionError
          "Streaming command failed: Streaming command failed: SSH failed and retry exhausted.") :=
  ⟨c2_single_retry_bound.1 execB1 wRefused,
    c2_single_retry_bound.2 execB1 "B1" "B2" [] [] []
      (by decide) (by decide) (by decide)⟩

/-- Counterexample to claim C3: entering `stream_execute` not connected
with retries remaining, `reconnect` reports a reboot and the scripted
command would succeed, yet the call does not retry and fails with
`RemoteExecutionError` instead of returning the command's result. -/
theorem c3_reboot_not_retried_counterexample :
    (stream_execute execNew wRebootInReconnect true).1 =
      Except.error (PyError.remoteExecutionError
        "Reconnect failed: Remote host rebooted! Old: B1, New: B2") ∧
      (stream_execute execNew wRebootInReconnect true).1 ≠ Except.ok () := by
  decide

/-- Claim C3, amended: when `stream_execute` is entered not connected and
`reconnect` raises `RemoteRebootDetected`, the call always fails with
`RemoteExecutionError("Reconnect failed: ...")` — the `except Exception`
clause swallows the reboot signal before the retry line, for either value
of `retry_on_reboot`. -/
theorem c3_reboot_during_reconnect_amended :
    ∀ (retry : Bool) (s : RemoteExecutor) (w : World) (oldBT newBT : String)
      (s1 : RemoteExecutor) (w1 : World),
      s.connected = false →
      reconnect s w = (ReconnectResult.rebootDetected oldBT newBT, s1, w1) →
      stream_execute s w retry =
        (Except.error (PyError.remoteExecutionError
          ("Reconnect failed: " ++ rebootMsg oldBT newBT)), s1, w1) := by
  intro retry s w oldBT newBT s1 w1 hc hr
  cases retry
  · exact stream_reconnect_reboot 0 s w oldBT newBT s1 w1 hc hr
  · exact stream_reconnect_reboot 1 s w oldBT newBT s1 w1 hc hr

/-- Witness for the amended C3 at a concrete not-connected executor. -/
theorem c3_reboot_during_reconnect_amended_witness :
    stream_execute execNew wRebootInReconnect true =
      (Except.error (PyError.remoteExecutionError
        "Reconnect failed: Remote host rebooted! Old: B1, New: B2"),
        { execNew with connected := true, boot_time := some "B2" },
        { wRebootInReconnect with sshRuns := [] }) :=
  c3_reboot_during_reconnect_amended true execNew wRebootInReconnect "B1" "B2"
    { execNew with connected := true, boot_time := some "B2" }
    { wRebootInReconnect with sshRuns := [] } (by decide) (by decide)

/-- Claim C4: the recovery loop is time-boxed by its iteration budget: it
either times out with the executor untouched, reporting the timeout
`RemoteExecutionError`, or returns `Ok` exactly at the first successful
probe within the budget, storing the observed fingerprint and setting
`connected`; and when no probe within the budget succeeds it always times
out — no `Ok` after the deadline.  (The wall-clock deadline of the source
is modelled as the `fuel` iteration budget; totality of the Lean function
is the loop's termination.) -/
theorem c4_recovery_loop_terminates :
    ∀ (fuel : Nat) (s : RemoteExecutor) (w : World),
      (((wait_for_reboot_and_reconnect fuel s w).1 =
          Except.error (PyError.remoteExecutionError timeoutMsg) ∧
        (wait_for_reboot_and_reconnect fuel s w).2.1 = s) ∨
        ((wait_for_reboot_and_reconnect fuel s w).1 = Except.ok true ∧
          (wait_for_reboot_and_reconnect fuel s w).2.1.connected = true)) ∧
      ((wait_for_reboot_and_reconnect fuel s w).1 = Except.ok true →
        ∃ i, i < fuel ∧ probeAt w i ≠ "" ∧ (∀ j, j < i → probeAt w j = "") ∧
          (wait_for_reboot_and_reconnect fuel s w).2.1.boot_time = some (probeAt w i)) ∧
      ((∀ i, i < fuel → probeAt w i = "") →
        (wait_for_reboot_and_reconnect fuel s w).1 =
          Except.error (PyError.remoteExecutionError timeoutMsg)) := by
  intro fuel s w
  refine ⟨?_, (wait_indices fuel s w).1, (wait_indices fuel s w).2⟩
  rcases wait_main fuel s w with ⟨h1, h2⟩ | ⟨bt, hbt, h1, h2⟩
  · exact Or.inl ⟨h1, h2⟩
  · exact Or.inr ⟨h1, by rw [h2]⟩

/-- Witness for C4: a one-iteration budget with a successful probe yields
`Ok` at index 0, and an all-failing script times out. -/
theorem c4_recovery_loop_terminates_witness :
    (∃ i, i < 1 ∧ probeAt wProbeOk i ≠ "" ∧
        (∀ j, j < i → probeAt wProbeOk j = "") ∧
        (wait_for_reboot_and_reconnect 1 execB1 wProbeOk).2.1.boot_time =
          some (probeAt wProbeOk i)) ∧
      (wait_for_reboot_and_reconnect 1 execB1 wProbeFail).1 =
        Except.error (PyError.remoteExecutionError timeoutMsg) :=
  ⟨(c4_recovery_loop_terminates 1 execB1 wProbeOk).2.1 (by decide),
    (c4_recovery_loop_terminates 1 execB1 wProbeFail).2.2 (by decide)⟩

/-- Claim C5: a connected command run that exits with a nonzero code other
than 255 fails immediately with the wrapped exit-code error; the executor
state is unchanged, no further command launch happens, and the ssh/ping
scripts are untouched (no recovery probing). -/
theorem c5_nonreboot_failure_no_retry :
    ∀ (retry : Bool) (s : RemoteExecutor) (w : World) (code : Nat)
      (rest : List CmdOutcome),
      s.connected = true → w.cmdRuns = CmdOutcome.ran code :: rest →
      code ≠ 255 → code ≠ 0 →
      stream_execute s w retry =
        (Except.error (PyError.remoteExecutionError
          ("Streaming command failed: " ++ ("Command failed with code " ++ toString code))),
          s, { w with cmdRuns := rest }) := by
  intro retry s w code rest hc hcmd h255 h0
  cases retry
  · exact stream_nonzero_fail 0 s w code rest hc hcmd h255 h0
  · exact stream_nonzero_fail 1 s w code rest hc hcmd h255 h0

/-- Witness for C5 at exit code 1. -/
theorem c5_nonreboot_failure_no_retry_witness :
    stream_execute execB1 wExitOne true =
      (Except.error (PyError.remoteExecutionError
        "Streaming command failed: Command failed with code 1"),
        execB1, { wExitOne with cmdRuns := [] }) :=
  c5_nonreboot_failure_no_retry true execB1 wExitOne 1 []
    (by decide) (by decide) (by decide) (by decide)

/-- Counterexample to claim C6: a failed probe does not set `connected`
to `False` — here `is_alive` reports `Unreachable` on an executor whose
`connected` flag is `True`, and the flag stays `True`. -/
theorem c6_connected_flag_counterexample :
    (is_alive execB1 wProbeFail).1 = false ∧
      (is_alive execB1 wProbeFail).2.1.connected = true := by
  decide

/-- Claim C6, amended: `connected` is set to `True` only by a successful
probe or a successful recovery; no operation ever sets it to `False`, so
after `is_alive` reports `Unreachable` the flag keeps its previous value,
and after the recovery loop times out the whole executor is unchanged. -/
theorem c6_connected_flag_amended :
    ∀ (s : RemoteExecutor) (w : World),
      ((is_alive s w).1 = true → (is_alive s w).2.1.connected = true) ∧
      ((is_alive s w).1 = false → (is_alive s w).2.1.connected = s.connected) ∧
      (∀ fuel, ((wait_for_reboot_and_reconnect fuel s w).1 = Except.ok true →
          (wait_for_reboot_and_reconnect fuel s w).2.1.connected = true) ∧
        ((wait_for_reboot_and_reconnect fuel s w).1 ≠ Except.ok true →
          (wait_for_reboot_and_reconnect fuel s w).2.1 = s)) := by
  intro s w
  refine ⟨?_, ?_, ?_⟩
  · intro h
    obtain ⟨out, rest, hw, he⟩ := is_alive_true_state s w h
    rw [he]
  · intro h
    rw [is_alive_false_state s w h]
  · intro fuel
    rcases wait_main fuel s w with ⟨h1, h2⟩ | ⟨bt, hbt, h1, h2⟩
    · constructor
      · intro hok
        rw [h1] at hok
        simp at hok
      · intro _
        exact h2
    · constructor
      · intro _
        rw [h2]
      · intro hne
        exact absurd h1 hne

/-- Witness for the amended C6: success sets the flag, failure preserves
it, and a timed-out recovery leaves the executor unchanged. -/
theorem c6_connected_flag_amended_witness :
    (is_alive execB1 wProbeOk).2.1.connected = true ∧
      (is_alive execB1 wProbeFail).2.1.connected = execB1.connected ∧
      (wait_for_reboot_and_reconnect 1 execB1 wProbeFail).2.1 = execB1 :=
  ⟨(c6_connected_flag_amended execB1 wProbeOk).1 (by decide),
    ((c6_connected_flag_amended execB1 wProbeFail).2.1) (by decide),
    (((c6_connected_flag_amended execB1 wProbeFail).2.2) 1).2 (by decide)⟩

/-- Claim C7: the liveness probe is total and non-throwing on every branch:
its Lean embedding returns a `Bool` (never an exception value), and the
result is `True` exactly when the scripted ssh probe ran with exit code 0
— every other outcome, including transport exceptions of the probe and
every outcome of the echo-probe fallback (success, failure or exception),
is converted to `Unreachable` (`False`). -/
theorem c7_is_alive_total_nonthrowing :
    ∀ (s : RemoteExecutor) (w : World),
      (is_alive s w).1 = sshProbeOk (popSsh w).1 := by
  intro s w
  rcases w with ⟨ssh, pings, cmds⟩
  rcases ssh with _ | ⟨o, rest⟩
  · exact (pingFallback_spec s ⟨[], pings, cmds⟩).1
  · rcases o with ⟨code, out⟩ | _
    · rcases code with _ | c
      · rfl
      · exact (pingFallback_spec s ⟨rest, pings, cmds⟩).1
    · exact (pingFallback_spec s ⟨rest, pings, cmds⟩).1

/-- Claim C8: every unreachable outcome leaves the fingerprint unchanged:
a failed probe returns `Unreachable` without touching `boot_time`, and a
`reconnect` that finds the host unreachable returns without mutating
`boot_time`. -/
theorem c8_unreachable_preserves_fingerprint :
    ∀ (s : RemoteExecutor) (w : World),
      ((is_alive s w).1 = false → (is_alive s w).2.1.boot_time = s.boot_time) ∧
      ((reconnect s w).1 = ReconnectResult.ret false →
        (reconnect s w).2.1.boot_time = s.boot_time) := by
  intro s w
  constructor
  · intro h
    rw [is_alive_false_state s w h]
  · intro h
    rcases ha : is_alive s w with ⟨b, s1, w1⟩
    rcases b
    · have hfalse : (is_alive s w).1 = false := by rw [ha]
      have hs1 : s1 = s := by
        have hst := is_alive_false_state s w hfalse
        rw [ha] at hst
        exact hst
      simp only [reconnect, ha, hs1]
    · exfalso
      simp only [reconnect, ha] at h
      split at h <;> first
        | (split at h <;> simp at h)
        | simp at h

/-- Witness for C8 at a concrete failing probe. -/
theorem c8_unreachable_preserves_fingerprint_witness :
    (is_alive execB1 wProbeFail).2.1.boot_time = execB1.boot_time ∧
      (reconnect execB1 wProbeFail).2.1.boot_time = execB1.boot_time :=
  ⟨(c8_unreachable_preserves_fingerprint execB1 wProbeFail).1 (by decide),
    (c8_unreachable_preserves_fingerprint execB1 wProbeFail).2 (by decide)⟩

/-- Claim C9: `was_rebooted` never returns a boolean and never mutates
`boot_time`: the body looks up `self.execute`, which `RemoteExecutor`
does not define, so every call fails with an `AttributeError` that the
`except RemoteExecutionError` clause does not catch, leaving the state
untouched. -/
theorem c9_was_rebooted_always_fails :
    ∀ s : RemoteExecutor,
      was_rebooted s = (Except.error (PyError.attributeError "execute"), s) := by
  intro s
  rfl

/-- Claim C10: a phantom reboot: when the liveness probe succeeds with a
non-empty fingerprint and the second boot-time query of the same
`reconnect` call raises (so `_get_boot_time` returns its unvalidated `""`
fallback), `reconnect` raises `RemoteRebootDetected` with the new value
`""` and stores `""` as the fingerprint. -/
theorem c10_phantom_reboot :
    ∀ (s : RemoteExecutor) (w : World) (bt : String) (rest : List SshOutcome),
      w.sshRuns = SshOutcome.ran 0 bt :: SshOutcome.exn :: rest → bt ≠ "" →
      reconnect s w =
        (ReconnectResult.rebootDetected bt "",
          { s with connected := true, boot_time := some "" },
          { w with sshRuns := rest }) := by
  intro s w bt rest hw hbt
  rcases w with ⟨ssh, pings, cmds⟩
  simp only at hw
  subst hw
  simp [reconnect, is_alive, popSsh, get_boot_time, hbt]

/-- Witness for C10: stored "B1", probe observes "B2", second query raises. -/
theorem c10_phantom_reboot_witness :
    reconnect execB1 wPhantom =
      (ReconnectResult.rebootDetected "B2" "",
        { execB1 with connected := true, boot_time := some "" },
        { wPhantom with sshRuns := [] }) :=
  c10_phantom_reboot execB1 wPhantom "B2" [] (by decide) (by decide)
